import Mathlib

/-!
Verification of the nornir-nautobot default dispatcher
(`nornir_nautobot/plugins/tasks/dispatcher/default.py`).

The development shallowly embeds the module:

* the line sanitizer (`_remove_lines`, `_substitute_lines`) together with the
  fragment of Python's `re` machinery that the sanitizer exercises
  (character literals, character classes such as `\S`, concatenation,
  greedy `*`/`+`, one level of capture groups, the `^` and `$` anchors with
  or without `re.MULTILINE`, `re.match`, `re.search` and `re.sub`);
* Python string helpers used by the module (`str.split("\n")`,
  `str.replace`, `str.rstrip`, substring containment);
* the five dispatcher operations (`get_config` of both driver classes,
  `check_connectivity`, `compliance_config`, `generate_config`) as pure
  functions over explicit collaborator behaviours, returning the surfaced
  outcome together with the list of `logger.log_failure` messages and the
  list of file writes performed.

Machine-level effects (`log_debug` calls, the actual socket and file system
calls) are represented by their observable traces or by boolean/functional
collaborator parameters, exactly as the code consumes them.
-/

/-! ## The regex fragment -/

/-- Python's whitespace set used by `str.rstrip()` and by the `\s`/`\S`
classes (ASCII part, which is what the repo's patterns rely on). -/
def pyIsSpace (c : Char) : Bool :=
  c == ' ' || c == '\t' || c == '\n' || c == '\r' || c == '\x0b' || c == '\x0c'

/-- The `\S` character class: any non-whitespace character. -/
def nonSpace (c : Char) : Bool := !(pyIsSpace c)

/-- Abstract syntax of the regex fragment the dispatcher's rules use. -/
inductive Regex where
  | eps
  | char (c : Char)
  | cls (p : Char → Bool)
  | cat (a b : Regex)
  | star (a : Regex)
  | group (a : Regex)
  | bol
  | eol

/-- Size of a regex term, used to compute a sufficient fuel bound. -/
def rsize : Regex → Nat
  | .eps => 1
  | .char _ => 1
  | .cls _ => 1
  | .cat a b => rsize a + rsize b + 1
  | .star a => rsize a + 1
  | .group a => rsize a + 1
  | .bol => 1
  | .eol => 1

/-- Backtracking matcher.  `mtch ml text fuel r i` returns, in backtracking
priority order (greedy repetition first, mirroring Python `re`), the list of
pairs `(endPos, captures)` of ways `r` can match `text` starting at
position `i`.  `ml` selects `re.MULTILINE` anchor semantics.  `fuel`
bounds the recursion depth; repetition steps that consume no input are
pruned, as Python's engine never repeats an empty match. -/
def mtch (ml : Bool) (text : List Char) : Nat → Regex → Nat → List (Nat × List (List Char))
  | 0, _, _ => []
  | _ + 1, .eps, i => [(i, [])]
  | _ + 1, .char c, i =>
    match text[i]? with
    | some d => if d = c then [(i + 1, [])] else []
    | none => []
  | _ + 1, .cls p, i =>
    match text[i]? with
    | some d => if p d then [(i + 1, [])] else []
    | none => []
  | fuel + 1, .cat a b, i =>
    (mtch ml text fuel a i).flatMap fun ja =>
      (mtch ml text fuel b ja.1).map fun kb => (kb.1, ja.2 ++ kb.2)
  | fuel + 1, .star a, i =>
    ((mtch ml text fuel a i).flatMap fun ja =>
      if ja.1 = i then []
      else (mtch ml text fuel (.star a) ja.1).map fun ks => (ks.1, ja.2 ++ ks.2))
      ++ [(i, [])]
  | fuel + 1, .group a, i =>
    (mtch ml text fuel a i).map fun ja => (ja.1, ((text.drop i).take (ja.1 - i)) :: ja.2)
  | _ + 1, .bol, i =>
    if i == 0 || (ml && text[i - 1]? == some '\n') then [(i, [])] else []
  | _ + 1, .eol, i =>
    if (if ml then i == text.length || text[i]? == some '\n'
        else i == text.length || (i + 1 == text.length && text[i]? == some '\n'))
    then [(i, [])] else []

/-- Fuel sufficient for any match attempt of `r` on `text`. -/
def mfuel (r : Regex) (text : List Char) : Nat :=
  (text.length + 1) * (rsize r + 2) + 1

/-- The Python-preferred match of `r` at position `i` of `text`
(first in backtracking priority order), as `(endPos, captures)`. -/
def matchAt (ml : Bool) (r : Regex) (text : List Char) (i : Nat) :
    Option (Nat × List (List Char)) :=
  (mtch ml text (mfuel r text) r i).head?

/-- `re.match(r, line)` (no flags): anchored at position 0; returns the
captures (`MatchObject.groups()`, restricted to participating groups —
every pattern the module feeds here has at most one group, which
participates whenever the pattern matches). -/
def reMatch (r : Regex) (line : List Char) : Option (List (List Char)) :=
  (matchAt false r line 0).map (fun m => m.2)

/-- Scan positions `i, i+1, …` (at most `tries` of them) for the leftmost
match of `r`. -/
def findFromAux (ml : Bool) (r : Regex) (text : List Char) :
    Nat → Nat → Option (Nat × Nat × List (List Char))
  | _, 0 => none
  | i, tries + 1 =>
    match matchAt ml r text i with
    | some m => some (i, m.1, m.2)
    | none => findFromAux ml r text (i + 1) tries

/-- `re.search(r, text)` viewed as a boolean: does `r` match anywhere? -/
def reSearch (r : Regex) (text : List Char) : Bool :=
  (findFromAux false r text 0 (text.length + 1)).isSome

/-- Worker for `re.sub`: walk the text left to right; at each position take
the preferred match if any, emit the replacement and jump past the match
(an empty match additionally emits the current character and advances one
position, as CPython ≥ 3.7 does); otherwise emit the character. -/
def reSubAux (ml : Bool) (r : Regex) (repl : List Char) (text : List Char) :
    Nat → Nat → List Char
  | 0, pos => text.drop pos
  | fuel + 1, pos =>
    match matchAt ml r text pos with
    | none =>
      match text[pos]? with
      | none => []
      | some c => c :: reSubAux ml r repl text fuel (pos + 1)
    | some m =>
      if m.1 = pos then
        match text[pos]? with
        | none => repl
        | some c => repl ++ c :: reSubAux ml r repl text fuel (pos + 1)
      else repl ++ reSubAux ml r repl text fuel m.1

/-- `re.sub(r, repl, text, flags = ml)`: global leftmost non-overlapping
replacement. -/
def reSub (ml : Bool) (r : Regex) (repl : List Char) (text : List Char) : List Char :=
  reSubAux ml r repl text (text.length + 1) 0

/-! ## Python string helpers -/

/-- `str.split("\n")`. -/
def splitNewline : List Char → List (List Char)
  | [] => [[]]
  | c :: rest =>
    if c = '\n' then [] :: splitNewline rest
    else
      match splitNewline rest with
      | [] => [[c]]
      | l :: ls => (c :: l) :: ls

/-- `str.rstrip()`. -/
def rstrip (l : List Char) : List Char :=
  (l.reverse.dropWhile pyIsSpace).reverse

/-- Worker for `str.replace` with a non-empty needle. -/
def pyReplaceAux (old new : List Char) : Nat → List Char → List Char
  | 0, s => s
  | fuel + 1, s =>
    match s with
    | [] => []
    | c :: rest =>
      if old.isPrefixOf s then new ++ pyReplaceAux old new fuel (s.drop old.length)
      else c :: pyReplaceAux old new fuel rest

/-- `s.replace(old, new)`: replaces every non-overlapping occurrence,
left to right; an empty `old` inserts `new` around every character. -/
def pyReplace (s old new : List Char) : List Char :=
  if old = [] then new ++ s.flatMap (fun c => [c] ++ new)
  else pyReplaceAux old new s.length s

/-- Substring containment (Python's `needle in haystack`). -/
def containsSub (needle : List Char) : List Char → Bool
  | [] => needle.isPrefixOf ([] : List Char)
  | c :: rest => needle.isPrefixOf (c :: rest) || containsSub needle rest

/-! ## The line sanitizer -/

/-- Uncaught Python exceptions the sanitizer can raise. -/
inductive PyError where
  | indexError
deriving DecidableEq

/-- One entry of the `substitute_lines` list:
`{"regex_search": …, "regex_replacement": …}`. -/
structure SubstituteRule where
  regex_search : Regex
  regex_replacement : List Char

/-- The inner `for item in substitute_lines` loop of `_substitute_lines`.
`re.match` is evaluated once per rule (the code calls it twice with the
same arguments; the result is identical).  A truthy match with an empty
`groups()` tuple makes `groups()[0]` raise `IndexError`.  NOTE: the
`new_config += line.rstrip() + "\n"` accumulation sits INSIDE this loop in
the source, so every rule appends a copy of the current line.
Returns `(finalLine, accumulated)`. -/
def substLineLoop : List SubstituteRule → List Char → List Char →
    Except PyError (List Char × List Char)
  | [], line, acc => Except.ok (line, acc)
  | item :: rest, line, acc =>
    match reMatch item.regex_search line with
    | some caps =>
      match caps with
      | [] => Except.error PyError.indexError
      | g :: _ =>
        let line2 := pyReplace line g item.regex_replacement
        substLineLoop rest line2 (acc ++ rstrip line2 ++ ['\n'])
    | none => substLineLoop rest line (acc ++ rstrip line ++ ['\n'])

/-- The outer `for line in config.split("\n")` loop of `_substitute_lines`. -/
def substAllLines (rules : List SubstituteRule) :
    List (List Char) → List Char → Except PyError (List Char)
  | [], acc => Except.ok acc
  | l :: ls, acc =>
    match substLineLoop rules l acc with
    | Except.error e => Except.error e
    | Except.ok la => substAllLines rules ls la.2

/-- `_substitute_lines(config, substitute_lines)` (default.py lines
232-261).  An empty rule list is falsy, so the input is returned
unchanged. -/
def _substitute_lines (config : List Char) (substitute_lines : List SubstituteRule) :
    Except PyError (List Char) :=
  if substitute_lines.isEmpty then Except.ok config
  else substAllLines substitute_lines (splitNewline config) []

/-- `_remove_lines(config, remove_lines)` (default.py lines 217-229):
each pattern is applied with `re.sub(pattern, "", config, flags=re.MULTILINE)`
to the accumulated result of the previous ones. -/
def _remove_lines (config : List Char) (remove_lines : List Regex) : List Char :=
  remove_lines.foldl (fun acc removal => reSub true removal [] acc) config

/-- Literal-string pattern (a regex matching exactly that string). -/
def litStr (s : List Char) : Regex :=
  s.foldr (fun c r => Regex.cat (Regex.char c) r) Regex.eps

/-- `r+` desugared, as in the rules' patterns. -/
def plusR (r : Regex) : Regex := Regex.cat r (Regex.star r)

/-! ## Dispatcher operations

Each operation is embedded as a pure function of the collaborator
behaviours it consumes.  The returned triple/pair carries the surfaced
outcome, the `logger.log_failure` messages issued (in order), and — where
the operation writes files — the `(path, text)` writes performed. -/

/-- Exceptions a `task.run` collaborator can raise, wrapped by
`NornirSubTaskError` (i.e. the possible values of `exc.result.exception`),
as the module distinguishes them by `isinstance` checks.  The four Jinja
constructors are the disjoint `isinstance` cells carved out by the check
order `UndefinedError`, `TemplateSyntaxError`, `TemplateNotFound`,
`TemplateError` (the last one is any other `jinja2.TemplateError`).
Each carries its `str()` rendering. -/
inductive SubExc where
  | netmikoAuth (msg : String)
  | netmikoTimeout (msg : String)
  | jinjaUndefined (msg : String)
  | jinjaTemplateSyntax (msg : String)
  | jinjaTemplateNotFound (msg : String)
  | jinjaTemplateError (msg : String)
  | other (msg : String)
deriving DecidableEq

/-- `str(exception)`. -/
def excStr : SubExc → String
  | .netmikoAuth m => m
  | .netmikoTimeout m => m
  | .jinjaUndefined m => m
  | .jinjaTemplateSyntax m => m
  | .jinjaTemplateNotFound m => m
  | .jinjaTemplateError m => m
  | .other m => m

/-- What a dispatcher operation surfaces to its caller:
a `Result` with a payload, a failed sub-task `Result` passed through
(`return result` after `result[0].failed`), a raised
`NornirNautobotException`, an uncaught Python exception (crash), or a
collaborator exception re-raised raw (the bare `raise`). -/
inductive Outcome (α : Type) where
  | success (payload : α)
  | failedResultReturn
  | nornirNautobotException
  | pyCrash (e : PyError)
  | reraised (e : SubExc)
deriving DecidableEq

/-- Did the operation surface a failure inside the spec's
`HostFailure`/`FatalError` taxonomy (as opposed to succeeding, crashing,
or letting a raw collaborator exception escape)? -/
def surfacesFailure {α : Type} : Outcome α → Bool
  | .failedResultReturn => true
  | .nornirNautobotException => true
  | _ => false

/-- Behaviour of one `task.run(...)` transport call: it either raises
`NornirSubTaskError` (whose `.result.exception` is `inner`), or returns a
result whose first entry has the given `failed` flag, `result` value and
`str(exception)` rendering. -/
inductive TransportResult (α : Type) where
  | raisesSubTaskError (inner : SubExc)
  | result (failed : Bool) (value : α) (excMsg : String)
deriving DecidableEq

/-- `RUN_COMMAND_MAPPING` (default.py lines 22-29). -/
def RUN_COMMAND_MAPPING : List (String × String) :=
  [("default", "show run"),
   ("cisco_nxos", "show run"),
   ("cisco_ios", "show run"),
   ("cisco_xr", "show run"),
   ("juniper_junos", "show configuration | display set"),
   ("arista_eos", "show run")]

/-- `dict.get` over an association list. -/
def tableGet (t : List (String × String)) (k : String) : Option String :=
  (t.find? (fun p => p.1 == k)).map (fun p => p.2)

/-- `RUN_COMMAND_MAPPING.get(platform, RUN_COMMAND_MAPPING["default"])`
(default.py line 177). -/
def resolveCommand (platform : String) : String :=
  (tableGet RUN_COMMAND_MAPPING platform).getD
    ((tableGet RUN_COMMAND_MAPPING ("default")).getD "")

/-- The shared sanitization block of both `get_config` variants
(default.py lines 60-66 and 203-208): apply `_remove_lines` if the list is
truthy, then `_substitute_lines` if that list is truthy. -/
def applySanitize (running_config : List Char) (remove_lines : List Regex)
    (substitute_lines : List SubstituteRule) : Except PyError (List Char) :=
  let c1 := if remove_lines.isEmpty then running_config
            else _remove_lines running_config remove_lines
  if substitute_lines.isEmpty then Except.ok c1
  else _substitute_lines c1 substitute_lines

/-- `NautobotNornirDriver.get_config` (default.py lines 35-72), the
Napalm variant.  `transport` is the behaviour of
`task.run(napalm_get, getters=["config"], retrieve="running")`, with the
`result[0].result["config"]["running"]` text as its value.
Returns (outcome, log_failure messages, file writes). -/
def napalmGetConfig (transport : TransportResult (List Char)) (backup_file : String)
    (remove_lines : List Regex) (substitute_lines : List SubstituteRule) :
    Outcome (List Char) × List String × List (String × List Char) :=
  match transport with
  | .raisesSubTaskError inner =>
    (.nornirNautobotException,
     ["Failed with a unknown issue. `" ++ excStr inner ++ "`"], [])
  | .result true _ em =>
    (.failedResultReturn, ["Failed with a unknown issue. `" ++ em ++ "`"], [])
  | .result false running _ =>
    match applySanitize running remove_lines substitute_lines with
    | Except.error e => (.pyCrash e, [], [])
    | Except.ok cfg => (.success cfg, [], [(backup_file, cfg)])

/-- The device-echoed rejected-command marker (default.py line 199). -/
def invalidMarker : List Char := "ERROR: % Invalid input detected at".data

/-- Body of `NetmikoNautobotNornirDriver.get_config` (default.py lines
179-214), from the `try: result = task.run(...)` on, as a function of that
call's behaviour.  Note that the `result[0].failed` path returns the
failed result WITHOUT logging. -/
def netmikoGetConfigAux (t : TransportResult (List Char)) (backup_file : String)
    (remove_lines : List Regex) (substitute_lines : List SubstituteRule) :
    Outcome (List Char) × List String × List (String × List Char) :=
  match t with
  | .raisesSubTaskError (.netmikoAuth m) =>
    (.nornirNautobotException,
     ["Failed with an authentication issue: `" ++ m ++ "`"], [])
  | .raisesSubTaskError (.netmikoTimeout m) =>
    (.nornirNautobotException, ["Failed with a timeout issue. `" ++ m ++ "`"], [])
  | .raisesSubTaskError e =>
    (.nornirNautobotException,
     ["Failed with an unknown issue. `" ++ excStr e ++ "`"], [])
  | .result true _ _ => (.failedResultReturn, [], [])
  | .result false running _ =>
    if containsSub invalidMarker running then
      (.nornirNautobotException,
       ["Discovered `ERROR: % Invalid input detected at` in the output"], [])
    else
      match applySanitize running remove_lines substitute_lines with
      | Except.error e => (.pyCrash e, [], [])
      | Except.ok cfg => (.success cfg, [], [(backup_file, cfg)])

/-- `NetmikoNautobotNornirDriver.get_config` (default.py lines 165-214):
resolve the platform's command, then run the body on the behaviour of
`task.run(netmiko_send_command, command_string=command)` (given as
`transport`, a function of the command string). -/
def netmikoGetConfig (platform : String)
    (transport : String → TransportResult (List Char)) (backup_file : String)
    (remove_lines : List Regex) (substitute_lines : List SubstituteRule) :
    Outcome (List Char) × List String × List (String × List Char) :=
  netmikoGetConfigAux (transport (resolveCommand platform)) backup_file
    remove_lines substitute_lines

/-- The host fields `check_connectivity` reads. -/
structure Host where
  hostname : String
  username : String
  password : String
deriving DecidableEq

/-- Tail of `check_connectivity` after `ip_addr` is determined
(default.py lines 85-97). -/
def connectivityRest (host : Host) (ip_addr : String)
    (test_tcp_port : String → Nat → Bool) : Outcome Unit × List String :=
  let port := 22
  if test_tcp_port ip_addr port = false then
    (.nornirNautobotException,
     ["Attempting to connect to IP: " ++ ip_addr ++ " and port: " ++
      toString port ++ " failed."])
  else if host.username = "" then
    (.nornirNautobotException, ["There was no username defined, preemptively failed."])
  else if host.password = "" then
    (.nornirNautobotException, ["There was no password defined, preemptively failed."])
  else (.success (), [])

/-- `NautobotNornirDriver.check_connectivity` (default.py lines 74-97).
The address/port collaborators (`is_ip`, `hostname_resolves`,
`socket.gethostbyname`, `test_tcp_port`) are passed as functions.
An empty username/password string is Python-falsy. -/
def checkConnectivity (host : Host) (is_ip hostname_resolves : String → Bool)
    (gethostbyname : String → String) (test_tcp_port : String → Nat → Bool) :
    Outcome Unit × List String :=
  if is_ip host.hostname then
    connectivityRest host host.hostname test_tcp_port
  else if hostname_resolves host.hostname = false then
    (.nornirNautobotException, ["not an IP or resolvable."])
  else
    connectivityRest host (gethostbyname host.hostname) test_tcp_port

/-- `NautobotNornirDriver.compliance_config` (default.py lines 99-117).
`backupExists`/`intendedExists` are the results of the two
`os.path.exists` probes; `complianceResult` is the behaviour of the
`compliance(...)` collaborator (its raised exception's `str()` or its
feature data).  The third component counts calls to that collaborator. -/
def complianceConfig (backupExists intendedExists : Bool)
    (backup_file intended_file : String) (complianceResult : Except String String) :
    Outcome String × List String × Nat :=
  if backupExists = false then
    (.nornirNautobotException,
     ["Backup file Not Found at location: `" ++ backup_file ++ "`"], 0)
  else if intendedExists = false then
    (.nornirNautobotException,
     ["Intended config file NOT Found at location: `" ++ intended_file ++ "`"], 0)
  else
    match complianceResult with
    | Except.error e => (.nornirNautobotException, ["UNKNOWN Failure of: " ++ e], 1)
    | Except.ok d => (.success d, [], 1)

/-- Behaviour of the `task.run(template_file, ...)` rendering collaborator. -/
inductive TemplateOutcome where
  | ok (text : List Char)
  | subTaskError (inner : SubExc)
deriving DecidableEq

/-- `NautobotNornirDriver.generate_config` (default.py lines 119-159).
The four Jinja `isinstance` branches log and raise
`NornirNautobotException`; every other wrapped exception reaches the bare
`raise`, re-raising the collaborator's exception unchanged. -/
def generateConfig (tmpl : TemplateOutcome) (output_file_location : String) :
    Outcome (List Char) × List String × List (String × List Char) :=
  match tmpl with
  | .ok filled => (.success filled, [], [(output_file_location, filled)])
  | .subTaskError (.jinjaUndefined m) =>
    (.nornirNautobotException,
     ["There was a jinja2.exceptions.UndefinedError error: ``" ++ m ++ "``"], [])
  | .subTaskError (.jinjaTemplateSyntax m) =>
    (.nornirNautobotException,
     ["There was a jinja2.TemplateSyntaxError error: ``" ++ m ++ "``"], [])
  | .subTaskError (.jinjaTemplateNotFound m) =>
    (.nornirNautobotException,
     ["There was an issue finding the template and a jinja2.TemplateNotFound error was raised: ``" ++ m ++ "``"], [])
  | .subTaskError (.jinjaTemplateError m) =>
    (.nornirNautobotException,
     ["There was an issue general Jinja error: ``" ++ m ++ "``"], [])
  | .subTaskError e => (.reraised e, [], [])

/-! ## Concrete patterns and rules used by the claims -/

/-- The pattern `^user (\S+)$`. -/
def userSearch : Regex :=
  Regex.cat Regex.bol (Regex.cat (litStr ("user ".data))
    (Regex.cat (Regex.group (plusR (Regex.cls nonSpace))) Regex.eol))

/-- The rule `{search: "^user (\S+)$", replacement: "REDACTED"}`. -/
def userRule : SubstituteRule := SubstituteRule.mk userSearch ("REDACTED".data)

/-- A rule whose search (`z`) matches no line of the inputs it is used
on. -/
def ruleNoMatchZ : SubstituteRule := SubstituteRule.mk (Regex.char 'z') ("X".data)

/-- A rule whose search `^user` has zero capturing groups. -/
def userNoGroupRule : SubstituteRule :=
  SubstituteRule.mk (Regex.cat Regex.bol (litStr ("user".data))) ("X".data)

/-! ## Theorems -/

/-- Helper: `re.match`/`matchAt` on a single-character pattern. -/
theorem matchAt_char (ml : Bool) (c : Char) (text : List Char) (i : Nat) :
    matchAt ml (Regex.char c) text i =
      match text[i]? with
      | some d => if d = c then some (i + 1, ([] : List (List Char))) else none
      | none => none := by
  unfold matchAt mfuel rsize
  cases hg : text[i]? with
  | none => simp [mtch, hg]
  | some d => by_cases hd : d = c <;> simp [mtch, hg, hd]

/-- Helper: `re.sub(c, "", ·)` with a single-character pattern removes
exactly the occurrences of that character. -/
theorem reSubAux_char (ml : Bool) (c : Char) (text : List Char) :
    ∀ (fuel pos : Nat), text.length ≤ pos + fuel →
      reSubAux ml (Regex.char c) [] text fuel pos =
        (text.drop pos).filter (fun d => !(d == c)) := by
  intro fuel
  induction fuel with
  | zero =>
    intro pos h
    have hd : text.drop pos = [] := List.drop_eq_nil_of_le (by omega)
    simp [reSubAux, hd]
  | succ f ih =>
    intro pos h
    cases hg : text[pos]? with
    | none =>
      have hlen : text.length ≤ pos := List.getElem?_eq_none_iff.mp hg
      have hd : text.drop pos = [] := List.drop_eq_nil_of_le hlen
      simp [reSubAux, matchAt_char, hg, hd]
    | some d =>
      obtain ⟨hlt, hget⟩ := List.getElem?_eq_some.mp hg
      have hdrop : text.drop pos = d :: text.drop (pos + 1) := by
        rw [List.drop_eq_getElem_cons hlt]
        congr 1
      by_cases hd : d = c
      · have hma : matchAt ml (Regex.char c) text pos = some (pos + 1, []) := by
          rw [matchAt_char, hg]
          simp [hd]
        calc reSubAux ml (Regex.char c) [] text (f + 1) pos
            = reSubAux ml (Regex.char c) [] text f (pos + 1) := by
              simp [reSubAux, hma]
          _ = (text.drop (pos + 1)).filter (fun e => !(e == c)) := ih (pos + 1) (by omega)
          _ = (text.drop pos).filter (fun e => !(e == c)) := by
              rw [hdrop]
              simp [hd]
      · have hma : matchAt ml (Regex.char c) text pos = none := by
          rw [matchAt_char, hg]
          simp [hd]
        rw [hdrop]
        calc reSubAux ml (Regex.char c) [] text (f + 1) pos
            = d :: reSubAux ml (Regex.char c) [] text f (pos + 1) := by
              simp [reSubAux, hma, hg]
          _ = d :: (text.drop (pos + 1)).filter (fun e => !(e == c)) := by
              rw [ih (pos + 1) (by omega)]
          _ = (d :: text.drop (pos + 1)).filter (fun e => !(e == c)) := by
              simp [hd]

/-- C1 (counterexample): `_remove_lines` does NOT delete matching lines
wholesale, and a line of the output can still match the pattern: with the
removal pattern `ab` on the one-line text `aabb`, the output is the line
`ab` — the line survives (with only the matched substring removed) and it
still matches the pattern. -/
theorem removeLines_leaves_matching_line :
    _remove_lines ("aabb".data) [litStr ("ab".data)] = "ab".data ∧
    (splitNewline (_remove_lines ("aabb".data) [litStr ("ab".data)])).any
      (fun l => reSearch (litStr ("ab".data)) l) = true := by
  constructor
  · rfl
  · rfl

/-- C1 (amended): `_remove_lines` performs `re.sub(p, "", text)` — it
deletes the matched substrings, not whole lines.  For a single-character
literal pattern the output is the input with every occurrence of that
character removed and every other character (including the remainder of
any line that matched) retained. -/
theorem removeLines_char_pattern_filters_chars (text : List Char) (c : Char) :
    _remove_lines text [Regex.char c] = text.filter (fun d => !(d == c)) := by
  have h := reSubAux_char true c text (text.length + 1) 0 (by omega)
  simpa [_remove_lines, reSub] using h

/-- C2 (code evaluated at the failing input): because the
`new_config += line.rstrip() + "\n"` accumulation sits inside the per-rule
loop, `_substitute_lines` emits one copy of each input line per rule: with
two (non-matching) rules the one-line input `a` becomes `a\na\n`, while
with one rule it is `a\n`. -/
theorem substituteLines_duplicates_lines_per_rule :
    _substitute_lines ("a".data) [ruleNoMatchZ, ruleNoMatchZ] =
      Except.ok ("a\na\n".data) ∧
    _substitute_lines ("a".data) [ruleNoMatchZ] = Except.ok ("a\n".data) := by
  constructor
  · rfl
  · rfl

/-- C3 (counterexample): with the rule
`{search: "^user (\S+)$", replacement: "REDACTED"}` on the input line
`user alice`, the output is NOT the line `REDACTED`: only the captured
group's text is replaced, so the `user ` prefix survives. -/
theorem substituteLines_user_rule_keeps_prefix :
    _substitute_lines ("user alice".data) [userRule] ≠
      Except.ok ("REDACTED\n".data) := by
  intro he
  have h2 : (Except.ok ("user REDACTED\n".data) : Except PyError (List Char)) =
      Except.ok ("REDACTED\n".data) := he
  exact absurd (Except.ok.inj h2) (by decide)

/-- C3 (amended): the rule replaces the first capturing group's matched
substring in place, so `user alice` becomes the right-trimmed,
newline-terminated line `user REDACTED`. -/
theorem substituteLines_user_rule_redacts_group :
    _substitute_lines ("user alice".data) [userRule] =
      Except.ok ("user REDACTED\n".data) := rfl

/-- C4 (code evaluated at the failing input): a rule whose search `^user`
has zero capturing groups and matches the line `user alice` makes
`re.match(...).groups()[0]` raise an uncaught `IndexError`: the sanitizer
crashes instead of signalling a `FatalError`, and through the Napalm
`get_config` driver the crash escapes with no `log_failure` call and no
`NornirNautobotException`. -/
theorem substituteLines_zero_groups_raises_indexError :
    _substitute_lines ("user alice".data) [userNoGroupRule] =
      Except.error PyError.indexError ∧
    napalmGetConfig (TransportResult.result false ("user alice".data) ("")) ("backup")
      [] [userNoGroupRule] = (Outcome.pyCrash PyError.indexError, [], []) := by
  constructor
  · rfl
  · rfl

/-- Helper: whenever the tail of `check_connectivity` (after the address
is determined) fails, it has logged exactly one message. -/
theorem connectivityRest_log_once (host : Host) (ip : String)
    (test_tcp_port : String → Nat → Bool)
    (h : surfacesFailure (connectivityRest host ip test_tcp_port).1 = true) :
    (connectivityRest host ip test_tcp_port).2.length = 1 := by
  unfold connectivityRest at h ⊢
  by_cases h1 : test_tcp_port ip 22 = false
  · simp [h1]
  · by_cases h2 : host.username = ""
    · simp [h1, h2]
    · by_cases h3 : host.password = ""
      · simp [h1, h2, h3]
      · simp [h1, h2, h3, surfacesFailure] at h

/-- C5 (counterexample): the Netmiko `get_config` path that returns a
failed transport result (`if result[0].failed: return result`, default.py
lines 193-194) surfaces a host-level failure to the caller with ZERO
`log_failure` calls. -/
theorem netmiko_failed_result_not_logged :
    surfacesFailure (netmikoGetConfig ("cisco_ios")
      (fun _ => TransportResult.result true ("x".data) ("err")) ("b") [] []).1 = true ∧
    (netmikoGetConfig ("cisco_ios")
      (fun _ => TransportResult.result true ("x".data) ("err")) ("b") [] []).2.1 = [] := by
  constructor
  · rfl
  · rfl

/-- C5 (amended): every path of the five dispatcher operations that
surfaces a `HostFailure`/`FatalError` outcome calls `log_failure` exactly
once before surfacing it — EXCEPT the Netmiko `get_config` path that
passes a failed transport result through, which logs nothing (for the
Netmiko variant the guarantee therefore holds for the raised
`NornirNautobotException` outcomes).  Crashes and raw re-raised
collaborator exceptions are outside the taxonomy. -/
theorem failure_paths_log_once_except_netmiko_failed_result :
    (∀ (t : TransportResult (List Char)) (b : String) (rl : List Regex)
       (sl : List SubstituteRule),
       surfacesFailure (napalmGetConfig t b rl sl).1 = true →
         (napalmGetConfig t b rl sl).2.1.length = 1) ∧
    (∀ (p b : String) (tr : String → TransportResult (List Char)) (rl : List Regex)
       (sl : List SubstituteRule),
       (netmikoGetConfig p tr b rl sl).1 = Outcome.nornirNautobotException →
         (netmikoGetConfig p tr b rl sl).2.1.length = 1) ∧
    (∀ (host : Host) (is_ip hostname_resolves : String → Bool)
       (gethostbyname : String → String) (test_tcp_port : String → Nat → Bool),
       surfacesFailure
           (checkConnectivity host is_ip hostname_resolves gethostbyname
             test_tcp_port).1 = true →
         (checkConnectivity host is_ip hostname_resolves gethostbyname
             test_tcp_port).2.length = 1) ∧
    (∀ (backupExists intendedExists : Bool) (bf intf : String)
       (cr : Except String String),
       surfacesFailure (complianceConfig backupExists intendedExists bf intf cr).1 =
           true →
         (complianceConfig backupExists intendedExists bf intf cr).2.1.length = 1) ∧
    (∀ (tmpl : TemplateOutcome) (out : String),
       surfacesFailure (generateConfig tmpl out).1 = true →
         (generateConfig tmpl out).2.1.length = 1) := by
  refine ⟨?_, ?_, ?_, ?_, ?_⟩
  · intro t b rl sl h
    match t with
    | TransportResult.raisesSubTaskError inner => rfl
    | TransportResult.result true v em => rfl
    | TransportResult.result false v em =>
      simp only [napalmGetConfig] at h ⊢
      cases hs : applySanitize v rl sl with
      | error e => rw [hs] at h; simp [surfacesFailure] at h
      | ok cfg => rw [hs] at h; simp [surfacesFailure] at h
  · intro p b tr rl sl h
    unfold netmikoGetConfig at h ⊢
    generalize tr (resolveCommand p) = t at h ⊢
    cases t with
    | raisesSubTaskError inner => cases inner <;> rfl
    | result f v em =>
      cases f with
      | true => simp [netmikoGetConfigAux] at h
      | false =>
        simp only [netmikoGetConfigAux] at h ⊢
        by_cases hm : containsSub invalidMarker v = true
        · simp [hm]
        · simp only [Bool.not_eq_true] at hm
          simp only [hm, Bool.false_eq_true, if_false] at h
          cases hs : applySanitize v rl sl with
          | error e => rw [hs] at h; simp at h
          | ok cfg => rw [hs] at h; simp at h
  · intro host is_ip hostname_resolves gethostbyname test_tcp_port h
    unfold checkConnectivity at h ⊢
    by_cases hip : is_ip host.hostname
    · simp only [hip, if_true] at h ⊢
      exact connectivityRest_log_once host host.hostname test_tcp_port h
    · simp only [hip, if_false, Bool.false_eq_true] at h ⊢
      by_cases hres : hostname_resolves host.hostname = false
      · simp [hres]
      · simp only [hres, if_false] at h ⊢
        exact connectivityRest_log_once host (gethostbyname host.hostname)
          test_tcp_port h
  · intro backupExists intendedExists bf intf cr h
    cases backupExists with
    | false => rfl
    | true =>
      cases intendedExists with
      | false => rfl
      | true =>
        unfold complianceConfig at h ⊢
        cases cr with
        | error e => simp
        | ok d => simp [surfacesFailure] at h
  · intro tmpl out h
    match tmpl with
    | TemplateOutcome.ok t => simp [generateConfig, surfacesFailure] at h
    | TemplateOutcome.subTaskError inner =>
      cases inner <;>
        first
          | rfl
          | simp [generateConfig, surfacesFailure] at h

/-- Witness for the amended C5 theorem at a concrete input: the Napalm
driver's transport-exception path logs exactly one failure. -/
theorem failure_paths_log_once_except_netmiko_failed_result_witness :
    (napalmGetConfig (TransportResult.raisesSubTaskError (SubExc.other ("e"))) ("b")
      [] []).2.1.length = 1 :=
  failure_paths_log_once_except_netmiko_failed_result.1
    (TransportResult.raisesSubTaskError (SubExc.other ("e"))) ("b") [] [] (by rfl)

/-- C6: whenever the Netmiko transport succeeds but its raw output
contains the device-echoed marker `ERROR: % Invalid input detected at`,
`get_config` logs the invalid-command failure, raises
`NornirNautobotException`, and performs no file write. -/
theorem netmiko_invalid_marker_fails_without_write
    (platform backup_file em : String) (raw : List Char)
    (remove_lines : List Regex) (substitute_lines : List SubstituteRule)
    (transport : String → TransportResult (List Char))
    (htr : transport (resolveCommand platform) = TransportResult.result false raw em)
    (hm : containsSub invalidMarker raw = true) :
    netmikoGetConfig platform transport backup_file remove_lines substitute_lines =
      (Outcome.nornirNautobotException,
       ["Discovered `ERROR: % Invalid input detected at` in the output"], []) := by
  unfold netmikoGetConfig
  rw [htr]
  simp [netmikoGetConfigAux, hm]

/-- Witness for C6 at a concrete input. -/
theorem netmiko_invalid_marker_fails_without_write_witness :
    netmikoGetConfig ("cisco_ios")
      (fun _ => TransportResult.result false
        ("sh run\nERROR: % Invalid input detected at line 1\n".data) (""))
      ("b") [] [] =
      (Outcome.nornirNautobotException,
       ["Discovered `ERROR: % Invalid input detected at` in the output"], []) :=
  netmiko_invalid_marker_fails_without_write ("cisco_ios") ("b") ("")
    ("sh run\nERROR: % Invalid input detected at line 1\n".data) [] []
    (fun _ => TransportResult.result false
      ("sh run\nERROR: % Invalid input detected at line 1\n".data) (""))
    (by rfl) (by decide)

/-- C7 (counterexample): a collaborator exception that is none of the four
Jinja kinds is NOT re-classified into the taxonomy: `generate_config`
re-raises it raw (the bare `raise`), with no `log_failure` call. -/
theorem generateConfig_reraises_raw_exception :
    generateConfig (TemplateOutcome.subTaskError (SubExc.other ("boom"))) ("out") =
      (Outcome.reraised (SubExc.other ("boom")), [], []) ∧
    surfacesFailure
      (generateConfig (TemplateOutcome.subTaskError (SubExc.other ("boom")))
        ("out")).1 = false := by
  constructor
  · rfl
  · rfl

/-- C7 (amended): the four Jinja error kinds are each caught, logged once
with a distinct message and re-classified as `NornirNautobotException`;
every other exception wrapped by the collaborator's `NornirSubTaskError`
is re-raised unchanged and propagates past the component boundary. -/
theorem generateConfig_classifies_jinja_reraises_rest (m out : String) :
    (generateConfig (TemplateOutcome.subTaskError (SubExc.jinjaUndefined m)) out =
      (Outcome.nornirNautobotException,
       ["There was a jinja2.exceptions.UndefinedError error: ``" ++ m ++ "``"], [])) ∧
    (generateConfig (TemplateOutcome.subTaskError (SubExc.jinjaTemplateSyntax m)) out =
      (Outcome.nornirNautobotException,
       ["There was a jinja2.TemplateSyntaxError error: ``" ++ m ++ "``"], [])) ∧
    (generateConfig (TemplateOutcome.subTaskError (SubExc.jinjaTemplateNotFound m)) out =
      (Outcome.nornirNautobotException,
       ["There was an issue finding the template and a jinja2.TemplateNotFound error was raised: ``" ++ m ++ "``"], [])) ∧
    (generateConfig (TemplateOutcome.subTaskError (SubExc.jinjaTemplateError m)) out =
      (Outcome.nornirNautobotException,
       ["There was an issue general Jinja error: ``" ++ m ++ "``"], [])) ∧
    (generateConfig (TemplateOutcome.subTaskError (SubExc.netmikoAuth m)) out =
      (Outcome.reraised (SubExc.netmikoAuth m), [], [])) ∧
    (generateConfig (TemplateOutcome.subTaskError (SubExc.netmikoTimeout m)) out =
      (Outcome.reraised (SubExc.netmikoTimeout m), [], [])) ∧
    (generateConfig (TemplateOutcome.subTaskError (SubExc.other m)) out =
      (Outcome.reraised (SubExc.other m), [], [])) :=
  ⟨rfl, rfl, rfl, rfl, rfl, rfl, rfl⟩

/-- C8: `compliance_config` checks its two file-existence preconditions
before invoking the comparison collaborator: if the backup file is missing
(and likewise, if it exists but the intended file is missing) it logs the
failure and raises `NornirNautobotException` with the collaborator
receiving ZERO calls — whatever the collaborator would have done. -/
theorem complianceConfig_missing_file_zero_collaborator_calls
    (intendedExists : Bool) (backup_file intended_file : String)
    (complianceResult : Except String String) :
    (complianceConfig false intendedExists backup_file intended_file
        complianceResult =
      (Outcome.nornirNautobotException,
       ["Backup file Not Found at location: `" ++ backup_file ++ "`"], 0)) ∧
    (complianceConfig true false backup_file intended_file complianceResult =
      (Outcome.nornirNautobotException,
       ["Intended config file NOT Found at location: `" ++ intended_file ++ "`"], 0)) :=
  ⟨rfl, rfl⟩

/-- Witness for C8 at a concrete input (collaborator would have succeeded;
it is never consulted). -/
theorem complianceConfig_missing_file_zero_collaborator_calls_witness :
    complianceConfig false true ("b.cfg") ("i.cfg") (Except.ok ("data")) =
      (Outcome.nornirNautobotException,
       ["Backup file Not Found at location: `" ++ "b.cfg" ++ "`"], 0) :=
  (complianceConfig_missing_file_zero_collaborator_calls true ("b.cfg") ("i.cfg")
    (Except.ok ("data"))).1

/-- Helper: behaviour of the tail of `check_connectivity` (port probe,
username, password checks in order, short-circuiting). -/
theorem connectivityRest_spec (host : Host) (ip : String)
    (test_tcp_port : String → Nat → Bool) :
    (test_tcp_port ip 22 = false →
      connectivityRest host ip test_tcp_port =
        (Outcome.nornirNautobotException,
         ["Attempting to connect to IP: " ++ ip ++ " and port: " ++ toString 22 ++
          " failed."])) ∧
    (test_tcp_port ip 22 = true → host.username = "" →
      connectivityRest host ip test_tcp_port =
        (Outcome.nornirNautobotException,
         ["There was no username defined, preemptively failed."])) ∧
    (test_tcp_port ip 22 = true → host.username ≠ "" → host.password = "" →
      connectivityRest host ip test_tcp_port =
        (Outcome.nornirNautobotException,
         ["There was no password defined, preemptively failed."])) ∧
    (test_tcp_port ip 22 = true → host.username ≠ "" → host.password ≠ "" →
      connectivityRest host ip test_tcp_port = (Outcome.success (), [])) := by
  refine ⟨?_, ?_, ?_, ?_⟩
  · intro h1
    simp [connectivityRest, h1]
  · intro h1 h2
    simp [connectivityRest, h1, h2]
  · intro h1 h2 h3
    simp [connectivityRest, h1, h2, h3]
  · intro h1 h2 h3
    simp [connectivityRest, h1, h2, h3]

/-- C9: `check_connectivity` performs its four validations in order —
address literal-or-resolvable, TCP reachability on port 22, non-empty
username, non-empty password — short-circuiting on the first failure with
a logged `NornirNautobotException`; the empty-password failure's message
mentions the password, and when all four pass the check succeeds with no
payload (and no failure log). -/
theorem checkConnectivity_ordered_shortcircuit (host : Host)
    (is_ip hostname_resolves : String → Bool) (gethostbyname : String → String)
    (test_tcp_port : String → Nat → Bool) :
    (is_ip host.hostname = false → hostname_resolves host.hostname = false →
      checkConnectivity host is_ip hostname_resolves gethostbyname test_tcp_port =
        (Outcome.nornirNautobotException, ["not an IP or resolvable."])) ∧
    ((is_ip host.hostname = true ∨ hostname_resolves host.hostname = true) →
      test_tcp_port (if is_ip host.hostname then host.hostname
        else gethostbyname host.hostname) 22 = false →
      checkConnectivity host is_ip hostname_resolves gethostbyname test_tcp_port =
        (Outcome.nornirNautobotException,
         ["Attempting to connect to IP: " ++
          (if is_ip host.hostname then host.hostname
           else gethostbyname host.hostname) ++ " and port: " ++ toString 22 ++
          " failed."])) ∧
    ((is_ip host.hostname = true ∨ hostname_resolves host.hostname = true) →
      test_tcp_port (if is_ip host.hostname then host.hostname
        else gethostbyname host.hostname) 22 = true →
      host.username = "" →
      checkConnectivity host is_ip hostname_resolves gethostbyname test_tcp_port =
        (Outcome.nornirNautobotException,
         ["There was no username defined, preemptively failed."])) ∧
    ((is_ip host.hostname = true ∨ hostname_resolves host.hostname = true) →
      test_tcp_port (if is_ip host.hostname then host.hostname
        else gethostbyname host.hostname) 22 = true →
      host.username ≠ "" → host.password = "" →
      checkConnectivity host is_ip hostname_resolves gethostbyname test_tcp_port =
        (Outcome.nornirNautobotException,
         ["There was no password defined, preemptively failed."]) ∧
      containsSub ("password".data)
        ("There was no password defined, preemptively failed.".data) = true) ∧
    ((is_ip host.hostname = true ∨ hostname_resolves host.hostname = true) →
      test_tcp_port (if is_ip host.hostname then host.hostname
        else gethostbyname host.hostname) 22 = true →
      host.username ≠ "" → host.password ≠ "" →
      checkConnectivity host is_ip hostname_resolves gethostbyname test_tcp_port =
        (Outcome.success (), [])) := by
  have key : (is_ip host.hostname = true ∨ hostname_resolves host.hostname = true) →
      checkConnectivity host is_ip hostname_resolves gethostbyname test_tcp_port =
        connectivityRest host
          (if is_ip host.hostname then host.hostname else gethostbyname host.hostname)
          test_tcp_port := by
    intro haddr
    by_cases hip : is_ip host.hostname
    · simp [checkConnectivity, hip]
    · have hipf : is_ip host.hostname = false := by simpa using hip
      have hres : hostname_resolves host.hostname = true := by
        rcases haddr with ha | hb
        · exact absurd ha hip
        · exact hb
      simp [checkConnectivity, hipf, hres]
  refine ⟨?_, ?_, ?_, ?_, ?_⟩
  · intro h1 h2
    simp [checkConnectivity, h1, h2]
  · intro haddr htp
    rw [key haddr]
    exact (connectivityRest_spec host _ test_tcp_port).1 htp
  · intro haddr htp hu
    rw [key haddr]
    exact (connectivityRest_spec host _ test_tcp_port).2.1 htp hu
  · intro haddr htp hu hp
    refine ⟨?_, by decide⟩
    rw [key haddr]
    exact (connectivityRest_spec host _ test_tcp_port).2.2.1 htp hu hp
  · intro haddr htp hu hp
    rw [key haddr]
    exact (connectivityRest_spec host _ test_tcp_port).2.2.2 htp hu hp

/-- Witness for C9 at a concrete input: valid literal address, open port,
username set, empty password — the failure message mentions the
password. -/
theorem checkConnectivity_ordered_shortcircuit_witness :
    checkConnectivity (Host.mk ("192.0.2.1") ("admin") ("")) (fun _ => true)
        (fun _ => false) (fun s => s) (fun _ _ => true) =
      (Outcome.nornirNautobotException,
       ["There was no password defined, preemptively failed."]) ∧
    containsSub ("password".data)
      ("There was no password defined, preemptively failed.".data) = true :=
  (checkConnectivity_ordered_shortcircuit (Host.mk ("192.0.2.1") ("admin") (""))
      (fun _ => true) (fun _ => false) (fun s => s) (fun _ _ => true)).2.2.2.1
    (Or.inl (by rfl)) (by rfl) (by decide) (by rfl)

/-- C10: on every successful `get_config` of either driver variant, the
single file write is to the backup path with text byte-identical to the
`config` payload of the returned `Result`, and that text is exactly the
output of the removal-then-substitution sanitization of the raw transport
output (so the raw text is only ever persisted when it is itself the
sanitizer's output). -/
theorem getConfig_persists_exactly_payload (b : String) (rl : List Regex)
    (sl : List SubstituteRule) :
    (∀ (t : TransportResult (List Char)) (cfg : List Char) (logs : List String)
       (ws : List (String × List Char)),
       napalmGetConfig t b rl sl = (Outcome.success cfg, logs, ws) →
         ws = [(b, cfg)]) ∧
    (∀ (raw : List Char) (em : String) (cfg : List Char) (logs : List String)
       (ws : List (String × List Char)),
       napalmGetConfig (TransportResult.result false raw em) b rl sl =
           (Outcome.success cfg, logs, ws) →
         applySanitize raw rl sl = Except.ok cfg ∧ ws = [(b, cfg)]) ∧
    (∀ (p : String) (tr : String → TransportResult (List Char)) (cfg : List Char)
       (logs : List String) (ws : List (String × List Char)),
       netmikoGetConfig p tr b rl sl = (Outcome.success cfg, logs, ws) →
         ws = [(b, cfg)]) ∧
    (∀ (p : String) (tr : String → TransportResult (List Char)) (raw : List Char)
       (em : String) (cfg : List Char) (logs : List String)
       (ws : List (String × List Char)),
       tr (resolveCommand p) = TransportResult.result false raw em →
       netmikoGetConfig p tr b rl sl = (Outcome.success cfg, logs, ws) →
         applySanitize raw rl sl = Except.ok cfg ∧ ws = [(b, cfg)]) := by
  refine ⟨?_, ?_, ?_, ?_⟩
  · intro t cfg logs ws h
    match t with
    | TransportResult.raisesSubTaskError inner =>
      simp [napalmGetConfig, Prod.mk.injEq] at h
    | TransportResult.result true v em =>
      simp [napalmGetConfig, Prod.mk.injEq] at h
    | TransportResult.result false v em =>
      simp only [napalmGetConfig] at h
      cases hs : applySanitize v rl sl with
      | error e => rw [hs] at h; simp [Prod.mk.injEq] at h
      | ok c =>
        rw [hs] at h
        simp only [Prod.mk.injEq, Outcome.success.injEq] at h
        obtain ⟨hcfg, hlogs, hws⟩ := h
        subst hcfg
        exact hws.symm
  · intro raw em cfg logs ws h
    simp only [napalmGetConfig] at h
    cases hs : applySanitize raw rl sl with
    | error e => rw [hs] at h; simp [Prod.mk.injEq] at h
    | ok c =>
      rw [hs] at h
      simp only [Prod.mk.injEq, Outcome.success.injEq] at h
      obtain ⟨hcfg, hlogs, hws⟩ := h
      subst hcfg
      exact ⟨rfl, hws.symm⟩
  · intro p tr cfg logs ws h
    unfold netmikoGetConfig at h
    generalize tr (resolveCommand p) = t at h
    match t with
    | TransportResult.raisesSubTaskError inner =>
      cases inner <;> simp [netmikoGetConfigAux, Prod.mk.injEq] at h
    | TransportResult.result true v em =>
      simp [netmikoGetConfigAux, Prod.mk.injEq] at h
    | TransportResult.result false v em =>
      simp only [netmikoGetConfigAux] at h
      by_cases hm : containsSub invalidMarker v = true
      · rw [if_pos hm] at h; simp [Prod.mk.injEq] at h
      · rw [if_neg hm] at h
        cases hs : applySanitize v rl sl with
        | error e => rw [hs] at h; simp [Prod.mk.injEq] at h
        | ok c =>
          rw [hs] at h
          simp only [Prod.mk.injEq, Outcome.success.injEq] at h
          obtain ⟨hcfg, hlogs, hws⟩ := h
          subst hcfg
          exact hws.symm
  · intro p tr raw em cfg logs ws htr h
    unfold netmikoGetConfig at h
    rw [htr] at h
    simp only [netmikoGetConfigAux] at h
    by_cases hm : containsSub invalidMarker raw = true
    · rw [if_pos hm] at h; simp [Prod.mk.injEq] at h
    · rw [if_neg hm] at h
      cases hs : applySanitize raw rl sl with
      | error e => rw [hs] at h; simp [Prod.mk.injEq] at h
      | ok c =>
        rw [hs] at h
        simp only [Prod.mk.injEq, Outcome.success.injEq] at h
        obtain ⟨hcfg, hlogs, hws⟩ := h
        subst hcfg
        exact ⟨rfl, hws.symm⟩

/-- Witness for C10 at a concrete input: a clean transport output with no
rules is persisted exactly as the payload. -/
theorem getConfig_persists_exactly_payload_witness :
    applySanitize ("hostname r1".data) [] [] = Except.ok ("hostname r1".data) ∧
    ([(("b" : String), "hostname r1".data)]) = [(("b" : String), "hostname r1".data)] :=
  (getConfig_persists_exactly_payload ("b") [] []).2.1 ("hostname r1".data) ("")
    ("hostname r1".data) [] ([(("b" : String), "hostname r1".data)]) (by rfl)
